import Mathlib

/-!
# Verification of the Sales_Agent conversational analysis system

A shallow embedding of the core of the `Sales_Agent` repository: the
sandboxed code executor (`src/sales_agent/utils/code_executor.py`), the
analysis agent (`src/sales_agent/agents/analysis_agent.py`), the data
retrieval agent (`src/sales_agent/agents/data_retrieval_agent.py`), the
conversation state (`src/sales_agent/utils/conversation_state.py`), the
orchestrator (`src/sales_agent/agents/orchestrator.py`) and the quarter-sales
statistic (`src/sales_agent/functions/statistics.py`).

External collaborators (the filesystem, the LLM adapter, the Google Drive
client, the pandas reader and renderers, and the Python `exec` primitive) are
modelled as an explicit environment `Env` of oracle functions; everything the
repository itself implements is translated directly.  Python's mutable
`self` is modelled by explicit state passing; an uncaught Python exception is
modelled as an `Except.error` carrying the exception text.  Wall-clock
timestamps kept by `ConversationState` are dropped (real time), they affect
no control flow.
-/

namespace SalesAgent

/-! ## Python string primitives -/

/-- Python's substring test `needle in haystack` (`str.__contains__`). -/
def strContains (haystack needle : String) : Bool :=
  decide (needle.data <:+: haystack.data)

/-- Python's `str.lower()`.  The repository only lowercases ASCII keywords and
URLs, for which ASCII `Char.toLower` agrees with Python. -/
def str_lower (s : String) : String := String.mk (s.data.map Char.toLower)

/-- Python's `str.startswith(pre)`. -/
def py_startswith (s pre : String) : Bool := pre.data.isPrefixOf s.data

/-- Python's `str.strip()`: whitespace removed from both ends. -/
def py_strip (s : String) : String :=
  String.mk
    (((s.data.dropWhile Char.isWhitespace).reverse.dropWhile Char.isWhitespace).reverse)

/-- Left-to-right removal of every non-overlapping occurrence of `pat`
(`re.sub(pat, "", -)` for a literal pattern), driven by a fuel argument equal
to the text length so the recursion is structural. -/
def removeAllFuel (pat : List Char) : Nat → List Char → List Char
  | 0, cs => cs
  | _, [] => []
  | fuel + 1, c :: cs =>
      if pat ≠ [] && pat.isPrefixOf (c :: cs) then
        removeAllFuel pat fuel (cs.drop (pat.length - 1))
      else
        c :: removeAllFuel pat fuel cs

/-- Every non-overlapping occurrence of `pat` deleted from `cs`. -/
def removeAll (pat cs : List Char) : List Char := removeAllFuel pat cs.length cs

/-- `str.split(sep)` for a one-character separator. -/
def splitOnChar (sep : Char) : List Char → List (List Char)
  | [] => [[]]
  | c :: cs =>
      match splitOnChar sep cs with
      | [] => [[c]]
      | g :: gs => if c = sep then [] :: g :: gs else (c :: g) :: gs

/-- `int(s)` on a plain string of decimal digits; `None` when `s` is not such
a string. -/
def parseNatDigits (cs : List Char) : Option Nat :=
  if cs.isEmpty then Option.none
  else
    cs.foldl
      (fun acc c =>
        match acc with
        | Option.none => Option.none
        | some n => if c.isDigit then some (n * 10 + (c.toNat - 48)) else Option.none)
      (some 0)

/-! ## Tabular data and Python runtime values -/

/-- A scalar cell of a tabular dataset (a pandas scalar). -/
inductive Cell where
  | null
  | num (q : ℚ)
  | str (s : String)
deriving DecidableEq, Repr

/-- An in-memory tabular dataset: a pandas `DataFrame` with named columns and
ordered rows. -/
structure DataFrame where
  cols : List String
  rows : List (List Cell)
deriving DecidableEq, Repr

/-- `df.head(n)`: the first `n` rows. -/
def DataFrame.head (d : DataFrame) (n : Nat) : DataFrame := ⟨d.cols, d.rows.take n⟩

/-- Index of a named column. -/
def DataFrame.colIdx (d : DataFrame) (name : String) : Option Nat :=
  d.cols.indexOf? name

/-- The cells of a named column (missing cells read as null). -/
def DataFrame.column (d : DataFrame) (name : String) : List Cell :=
  match d.colIdx name with
  | some i => d.rows.map (fun r => (r.get? i).getD .null)
  | none => []

/-- A Python runtime value as the analysis pipeline classifies it: scalar
number, string, list, dict, `DataFrame`, pandas `Series`, imported module, or
`None`. -/
inductive PyValue where
  | none
  | num (q : ℚ)
  | str (s : String)
  | list (xs : List PyValue)
  | dict (entries : List (String × PyValue))
  | frame (d : DataFrame)
  | series (cells : List Cell)
  | module (name : String)
deriving Repr

/-- Python `dict.get(key)` / pandas `DataFrame.get(key)`: `None` for a missing
key, an `AttributeError` on objects without a `get` attribute (`float`, `str`,
`list`, `None`, ...). -/
def pyGet (v : PyValue) (key : String) : Except String PyValue :=
  match v with
  | .dict entries => .ok ((entries.lookup key).getD .none)
  | .frame d => .ok (if d.cols.contains key then .series (d.column key) else .none)
  | _ => .error "AttributeError: object has no attribute get"

/-- Python truthiness (`if v:`); on a pandas object it raises `ValueError`. -/
def pyTruthy : PyValue → Except String Bool
  | .none => .ok false
  | .num q => .ok (decide (q ≠ 0))
  | .str s => .ok (decide (s ≠ ""))
  | .list xs => .ok (!xs.isEmpty)
  | .dict es => .ok (!es.isEmpty)
  | .frame _ => .error "ValueError: The truth value of a DataFrame is ambiguous"
  | .series _ => .error "ValueError: The truth value of a Series is ambiguous"
  | .module _ => .ok true

/-- A simple deterministic rendering standing in for Python's `str()` on the
shapes whose exact text no claim depends on. -/
def pyStr : PyValue → String
  | .none => "None"
  | .num q => toString q
  | .str s => s
  | .list _ => "[...]"
  | .dict _ => "(dict)"
  | .frame _ => "(DataFrame)"
  | .series _ => "(Series)"
  | .module n => "(module " ++ n ++ ")"

/-! ## The environment of external collaborators

`Env` packages every effectful collaborator the core calls: whether a path
exists on disk, the `exec` primitive run on screened code, the LLM adapter,
the dataset reader, the Drive/local retrieval collaborators, and the pandas
renderers used for prompts and result formatting.  Theorems quantify over
`Env`, so they hold for every behaviour of the collaborators. -/

/-- What running a code fragment under `exec(code, globals, locals)` did:
an optionally raised exception, the final locals dict, and the state of the
caller's dataset object afterwards (generated code may mutate it in place). -/
structure RunOutcome where
  raised : Option String
  final_locals : List (String × PyValue)
  df_after : DataFrame

/-- The tuple returned by `DataRetrievalAgent.retrieve_data`:
`(success, message, file_path)`. -/
structure RetrieveResult where
  success : Bool
  message : String
  file_path : Option String
deriving Repr

structure Env where
  /-- `pathlib.Path(s).exists()`. -/
  pathExists : String → Bool
  /-- The Python `exec` primitive: code, globals dict, locals dict. -/
  exec_code : String → List (String × PyValue) → List (String × PyValue) → RunOutcome
  /-- `self.llm.invoke(prompt).content`, or a raised provider error. -/
  llm_invoke : String → Except String String
  /-- `read_sales_data(path)` (`functions/data_ops.py`): the loaded frame or
  the raised reader error text. -/
  read_sales_data : String → Except String DataFrame
  /-- The Google-Drive / local-file retrieval collaborators (`data_sources/`),
  keyed by source kind: the `(success, message, file_path)` tuple. -/
  retrieve : String → String → RetrieveResult
  /-- `df.info()` schema rendering used in the grounding prompt. -/
  frame_info : DataFrame → String
  /-- `df.to_string()` rendering. -/
  frame_to_string : DataFrame → String

/-! ## Sandbox: `utils/code_executor.py` -/

/-- The fixed denylist of `unsafe_operations_check`. -/
def unsafe_keywords : List String :=
  ["os.", "sys.", "subprocess.", "eval(", "exec(",
   "open(", "import os", "import sys", "shutil",
   "requests.", "urllib.", "input("]

/-- `unsafe_operations_check(code)`: `False` iff some denylisted substring
occurs in the code. -/
def unsafe_operations_check (code : String) : Bool :=
  unsafe_keywords.all (fun keyword => !(strContains code keyword))

/-- The locals dict `execute_pandas_code` builds for `exec`: exactly the
dataset `df`, the libraries `pd`, `np`, `plt`, `sns`, and `result = None`. -/
def sandbox_local_vars (df : DataFrame) : List (String × PyValue) :=
  [("df", .frame df), ("pd", .module "pandas"), ("np", .module "numpy"),
   ("plt", .module "matplotlib.pyplot"), ("sns", .module "seaborn"),
   ("result", .none)]

/-- The globals dict passed to `exec`: empty (`exec(code, {}, local_vars)`). -/
def sandbox_globals : List (String × PyValue) := []

/-- Whether `name` is resolvable as an ambient name inside code executed by
the sandbox: it must be a key of the locals or the globals dict. -/
def resolvable_in_sandbox (df : DataFrame) (name : String) : Bool :=
  (sandbox_local_vars df).any (fun p => p.1 == name) ||
    sandbox_globals.any (fun p => p.1 == name)

/-- The result dict of `execute_pandas_code`: failure with an error text, or
success carrying `result` and `modified_df` (`local_vars.get("df")`). -/
inductive ExecResult where
  | failure (error : String)
  | success (result : PyValue) (modified_df : PyValue)

/-- `execute_pandas_code(df, code)` together with the state of the caller's
dataset object after the call (second component): screen the code, then run it
under `exec` with empty globals and the six-name locals dict; a raised
exception becomes a failure dict.  When the screen rejects, `exec` is never
consulted and the dataset object is returned as it came in. -/
def execute_pandas_code (env : Env) (df : DataFrame) (code : String) :
    ExecResult × DataFrame :=
  if unsafe_operations_check code = false then
    (.failure "Unsafe code detected", df)
  else
    let r := env.exec_code code sandbox_globals (sandbox_local_vars df)
    match r.raised with
    | some e => (.failure e, r.df_after)
    | none =>
        (.success ((r.final_locals.lookup "result").getD .none)
          ((r.final_locals.lookup "df").getD .none), r.df_after)

/-! ## Quarter sales: `functions/statistics.py` -/

/-- `pd.to_datetime` on an ISO `YYYY-MM-DD` string: year, month, day. -/
def parseDate (s : String) : Option (Nat × Nat × Nat) :=
  match (splitOnChar '-' s.data).map parseNatDigits with
  | [some y, some m, some d] => some (y, m, d)
  | _ => Option.none

/-- The month (`--dt.month`) of a date cell; `Option.none` models a value
`pd.to_datetime` cannot parse. -/
def cellMonth : Cell → Option Nat
  | .str s => (parseDate s).map (fun t => t.2.1)
  | _ => Option.none

/-- `pd.to_numeric(-, errors="coerce").fillna(0)` on one cell. -/
def to_numeric_coerce_fill0 : Cell → ℚ
  | .num q => q
  | .str s =>
      match parseNatDigits s.data with
      | some n => (n : ℚ)
      | Option.none => 0
  | .null => 0

/-- `calculate_quarter_sales(df, sales_column, date_column, months)`: coerce
the date column to datetimes, coerce the sales column to numbers with nulls
filled by 0, keep the rows whose month is in `months`, and sum their sales.
A missing column raises `KeyError`; an unparseable date raises inside
`pd.to_datetime`. -/
def calculate_quarter_sales (df : DataFrame) (sales_column date_column : String)
    (months : List Nat) : Except String ℚ :=
  match df.colIdx date_column, df.colIdx sales_column with
  | some di, some si =>
      match df.rows.mapM (fun r => cellMonth ((r.get? di).getD .null)) with
      | Option.none => .error "date parse error"
      | some ms =>
          let sales := df.rows.map (fun r => to_numeric_coerce_fill0 ((r.get? si).getD .null))
          .ok ((((ms.zip sales).filter (fun p => months.contains p.1)).map Prod.snd).sum)
  | _, _ => .error "KeyError"

/-! ## Result formatting: `AnalysisAgent._format_result` -/

/-- Digits of `m` grouped in threes with `,`, most significant first
(the integer part of Python's `,` format spec). -/
def chunk3 : List Char → List (List Char)
  | [] => []
  | [a] => [[a]]
  | [a, b] => [[a, b]]
  | a :: b :: c :: rest => [a, b, c] :: chunk3 rest

/-- Thousands-separated rendering of a natural number. -/
def commaGrouped (m : Nat) : String :=
  let ds := (Nat.toDigits 10 m).reverse
  String.intercalate "," (((chunk3 ds).map (fun g => String.mk g.reverse)).reverse)

/-- Python's format spec `,.2f` applied to an exact rational: round to two
decimal places and insert thousands separators.  (Python rounds the binary
double half-to-even; on the values the claims touch the two roundings
agree.) -/
def pyFormatCommas2f (q : ℚ) : String :=
  let n : ℤ := round (q * 100)
  let a : ℕ := n.natAbs
  let frac := a % 100
  (if n < 0 then "-" else "") ++ commaGrouped (a / 100) ++ "." ++
    (if frac < 10 then "0" else "") ++ toString frac

/-- `AnalysisAgent._format_result(query, result)`: tag-directed formatting of
the raw value captured from the sandbox (the `query` argument is unused by the
source body too). -/
def format_result (env : Env) (query : String) (result : PyValue) : String :=
  match result with
  | .num q => "**Result:** " ++ pyFormatCommas2f q
  | .frame d =>
      if d.rows.length > 10 then
        "**Result DataFrame (Top 10 rows):**\n\n" ++ env.frame_to_string (d.head 10)
      else
        "**Result DataFrame:**\n\n" ++ env.frame_to_string d
  | .str s => "**Result:** " ++ s
  | .list xs => "**Result:** " ++ String.intercalate ", " (xs.map pyStr)
  | v => pyStr v

/-! ## Analysis agent: `agents/analysis_agent.py` -/

/-- The analysis agent's own state: the loaded dataset and its path.
(Construction requires an LLM credential and is modelled as already
succeeded; the LLM handle itself lives in `Env`.) -/
structure AnalysisAgent where
  df : Option DataFrame
  file_path : Option String
deriving Repr

/-- A freshly constructed `AnalysisAgent`: no dataset loaded. -/
def AnalysisAgent.init : AnalysisAgent := ⟨Option.none, Option.none⟩

/-- `AnalysisAgent.load_data(file_path)`: store the frame the reader returns
and report `True`; a raised reader error is caught, printed to the console
only, and reported as a bare `False` — the error text is not part of the
returned outcome. -/
def load_data (env : Env) (a : AnalysisAgent) (file_path : String) :
    AnalysisAgent × Bool :=
  match env.read_sales_data file_path with
  | .ok d => ({ df := some d, file_path := some file_path }, true)
  | .error _e => (a, false)

/-- The grounding prompt of `AnalysisAgent._generate_code`: the literal query,
the live schema rendering and the first three rows.  (The fixed instruction
text is abbreviated; its exact wording is a spec non-goal and no claim
touches it.) -/
def build_prompt (env : Env) (d : DataFrame) (query : String) : String :=
  "You are an expert Python Data Analyst.\nYou have a pandas DataFrame named df.\n\n" ++
  "USER QUERY: \"" ++ query ++ "\"\n\nDATA SCHEMA:\n" ++ env.frame_info d ++
  "\n\nSAMPLE DATA:\n" ++ env.frame_to_string (d.head 3) ++
  "\n\nINSTRUCTIONS:\n1. Write Python code to answer the query using df.\n" ++
  "2. IMPORTANT: Handle data types!\n3. PRE-PLOTTING CHECK.\n" ++
  "4. Save the final result to a variable named result.\n" ++
  "5. Output ONLY the Python code. No markdown, no comments.\n"

/-- Strip markdown code fences from the raw completion
(`re.sub` of the literal patterns, then `strip()`). -/
def clean_code (content : String) : String :=
  py_strip
    (String.mk
      (removeAll "\x60\x60\x60".data
        (removeAll "\x60\x60\x60python".data (py_strip content).data)))

/-- `AnalysisAgent._generate_code(query)`: invoke the LLM on the grounding
prompt and clean the completion; a raised adapter error is caught and yields
`None`. -/
def generate_code (env : Env) (d : DataFrame) (query : String) : Option String :=
  match env.llm_invoke (build_prompt env d query) with
  | .ok content => some (clean_code content)
  | .error _ => Option.none

/-- The result dict of `AnalysisAgent.execute_analysis`:
`noData` is the no-dataset dict, which has only an `"error"` key — neither
`"success"` nor `"message"`; `failure` and `success` carry the `"message"`
value, and `success` also the raw `"data"` value. -/
inductive AnalysisResultDict where
  | noData
  | failure (message : String)
  | success (message : String) (data : PyValue)

/-- `AnalysisAgent.execute_analysis(query)`: fail fast when no dataset is
loaded, generate code, screen and execute it, then format the captured
result. -/
def execute_analysis (env : Env) (a : AnalysisAgent) (query : String) :
    AnalysisResultDict :=
  match a.df with
  | Option.none => .noData
  | some d =>
      match generate_code env d query with
      | Option.none => .failure "Failed to generate analysis code."
      | some code =>
          if code = "" then .failure "Failed to generate analysis code."
          else
            match (execute_pandas_code env d code).1 with
            | .failure e => .failure (" Code Execution Failed: " ++ e)
            | .success result _ => .success (format_result env query result) result

/-! ## Data retrieval agent: `agents/data_retrieval_agent.py` -/

/-- `DataRetrievalAgent.detect_data_source(user_input)`: keyword matching on
the lowercased input, then URL patterns, then an existing filesystem path. -/
def detect_data_source (env : Env) (user_input : String) : Option String :=
  let l := str_lower user_input
  if ["drive", "google", "gdrive"].any (fun k => strContains l k) then
    some "google_drive"
  else if ["s3", "aws", "bucket"].any (fun k => strContains l k) then
    some "s3"
  else if ["local", "file", "computer", "disk"].any (fun k => strContains l k) then
    some "local"
  else if strContains l "drive.google.com" || strContains l "docs.google.com" then
    some "google_drive"
  else if py_startswith l "s3://" then
    some "s3"
  else if env.pathExists user_input then
    some "local"
  else
    Option.none

/-- `DataRetrievalAgent.ask_for_data_location()`. -/
def ask_for_data_location : String :=
  "📁 Where is your data stored?\n\nOptions:\n  1️⃣ Google Drive (share the link)\n  2️⃣ Local file (provide file path)\n  3️⃣ S3 bucket (coming soon)\n\nPlease specify:"

/-- `DataRetrievalAgent.ask_for_path(data_source)`. -/
def ask_for_path (data_source : String) : String :=
  if data_source = "google_drive" then
    "🔗 Please share your Google Drive file link or ID\n\nExample: https://docs.google.com/spreadsheets/d/1xABC.../edit"
  else if data_source = "local" then
    "📂 Please provide the full path to your file\n\nExample: C:\\Users\\Documents\\sales_data.xlsx"
  else if data_source = "s3" then
    "☁️ Please provide the S3 bucket and key\n\nExample: s3://my-bucket/sales_data.xlsx"
  else
    "Please provide the file path or link"

/-- The `(success, message, file_path)` tuple of
`DataRetrievalAgent.retrieve_data`: Drive and local delegate to the retrieval
collaborators, S3 always fails with a fixed message, anything else fails as an
unknown source. -/
def retrieve_result (env : Env) (data_source path : String) : RetrieveResult :=
  if data_source = "google_drive" then env.retrieve "google_drive" path
  else if data_source = "local" then env.retrieve "local" path
  else if data_source = "s3" then ⟨false, "❌ S3 integration coming soon!", Option.none⟩
  else ⟨false, "❌ Unknown data source: " ++ data_source, Option.none⟩

/-! ## Conversation state: `utils/conversation_state.py` -/

/-- `ConversationState` (timestamps dropped: wall-clock time, no control
flow depends on them).  `results` holds the raw `"data"` value stored by
`set_results`; `messages` the ordered `(role, content)` history. -/
structure ConversationState where
  original_query : String := ""
  parsed_intent : String := ""
  data_source : Option String := Option.none
  data_path : Option String := Option.none
  downloaded_file_path : Option String := Option.none
  dataframe_loaded : Bool := false
  analysis_complete : Bool := false
  results : PyValue := .dict []
  output_file_path : Option PyValue := Option.none
  messages : List (String × String) := []
deriving Repr

/-- A freshly constructed `ConversationState()`. -/
def ConversationState.init : ConversationState := {}

def ConversationState.add_message (st : ConversationState) (role content : String) :
    ConversationState :=
  { st with messages := st.messages ++ [(role, content)] }

def ConversationState.set_data_source (st : ConversationState) (source path : String) :
    ConversationState :=
  { st with data_source := some source, data_path := some path }

def ConversationState.set_downloaded_file (st : ConversationState) (file_path : String) :
    ConversationState :=
  { st with downloaded_file_path := some file_path, dataframe_loaded := true }

def ConversationState.set_results (st : ConversationState) (results : PyValue) :
    ConversationState :=
  { st with results := results, analysis_complete := true }

def ConversationState.set_output_file (st : ConversationState) (v : PyValue) :
    ConversationState :=
  { st with output_file_path := some v }

def ConversationState.is_complete (st : ConversationState) : Bool :=
  st.dataframe_loaded && st.analysis_complete && st.output_file_path.isSome

/-! ## Orchestrator: `agents/orchestrator.py` -/

/-- `OrchestratorAgent`: the optional session state (None until
`start_conversation`), the owned analysis agent, and the current step. -/
structure OrchestratorAgent where
  state : Option ConversationState
  analysis_agent : AnalysisAgent
  current_step : String

/-- A freshly constructed `OrchestratorAgent()`: `state = None`,
`current_step = "initial"`. -/
def OrchestratorAgent.init : OrchestratorAgent :=
  ⟨Option.none, AnalysisAgent.init, "initial"⟩

/-- The orchestrator with its session state present: the shape every handler
runs under once `process_user_response` has appended the user message. -/
structure OrchLive where
  st : ConversationState
  analysis_agent : AnalysisAgent
  current_step : String

/-- `OrchestratorAgent._query_needs_data(query)`. -/
def query_needs_data (query : String) : Bool :=
  let l := str_lower query
  ["sales", "revenue", "data", "quarter", "month", "analyze", "show", "calculate"].any
    (fun k => strContains l k)

/-- `OrchestratorAgent.start_conversation(user_query)`: fresh state, record
the query, and move to `need_data_source` only when the query needs data. -/
def start_conversation (o : OrchestratorAgent) (user_query : String) :
    OrchestratorAgent × String :=
  let st := { ConversationState.init with original_query := user_query }
  let st := st.add_message "user" user_query
  if query_needs_data user_query then
    let response := ask_for_data_location
    ({ o with state := some (st.add_message "assistant" response),
              current_step := "need_data_source" }, response)
  else
    let response := "I can help with that, but I need more information..."
    ({ o with state := some (st.add_message "assistant" response) }, response)

/-- `OrchestratorAgent._handle_analysis_query(query)`: run the analysis, read
the response out of the result dict — defaulting to `"Analysis complete!"`
when the dict has no `"message"` key — and on success store the results and
probe `results.get("data", {}).get("output_file")`, whose `.get` raises
`AttributeError` on scalar data.  The step is never changed here. -/
def handle_analysis_query (env : Env) (live : OrchLive) (query : String) :
    OrchLive × Except String String :=
  let results := execute_analysis env live.analysis_agent query
  let response :=
    match results with
    | .noData => "Analysis complete!"
    | .failure m => m
    | .success m _ => m
  match results with
  | .success _ data =>
      let live := { live with st := live.st.set_results data }
      match pyGet data "output_file" with
      | .error e => (live, .error e)
      | .ok v =>
          match pyTruthy v with
          | .error e => (live, .error e)
          | .ok true => ({ live with st := live.st.set_output_file v }, .ok response)
          | .ok false => (live, .ok response)
  | _ => (live, .ok response)

/-- The retrieval-and-load tail of `_handle_data_path_response`, entered with
the source already known: retrieve, and on success load the file into the
analysis agent; load success moves to `ready_for_analysis` and immediately
re-runs the original query, concatenating the retrieval confirmation with the
analysis response.  Every failure keeps the step. -/
def handle_data_path_retrieve (env : Env) (live : OrchLive)
    (data_source user_input : String) : OrchLive × Except String String :=
  let r := retrieve_result env data_source user_input
  let live :=
    if r.success then
      { live with st := live.st.set_downloaded_file (r.file_path.getD "") }
    else live
  if r.success then
    let la := load_data env live.analysis_agent (r.file_path.getD "")
    let live := { live with analysis_agent := la.1 }
    if la.2 then
      let live := { live with current_step := "ready_for_analysis" }
      let ha := handle_analysis_query env live live.st.original_query
      match ha.2 with
      | .error e => (ha.1, .error e)
      | .ok analysis_response =>
          let response := r.message ++ "\n\n" ++ analysis_response
          ({ ha.1 with st := ha.1.st.add_message "assistant" response }, .ok response)
    else
      let response := r.message ++ "\n\n❌ Failed to load data for analysis."
      ({ live with st := live.st.add_message "assistant" response }, .ok response)
  else
    ({ live with st := live.st.add_message "assistant" r.message }, .ok r.message)

/-- `OrchestratorAgent._handle_data_path_response(user_input)`: use the
recorded source, or freshly detect one; with no detectable source return the
start-over message (without recording it in the history, as the source does). -/
def handle_data_path_response (env : Env) (live : OrchLive) (user_input : String) :
    OrchLive × Except String String :=
  match live.st.data_source with
  | some data_source => handle_data_path_retrieve env live data_source user_input
  | Option.none =>
      match detect_data_source env user_input with
      | some data_source =>
          handle_data_path_retrieve env
            { live with st := live.st.set_data_source data_source user_input }
            data_source user_input
      | Option.none =>
          (live, .ok "❌ Could not detect data source. Please start over.")

/-- `OrchestratorAgent._handle_data_source_response(user_input)`: classify the
input; on success record the source and move to `need_data_path`, and when a
Drive source comes with a Drive URL in the same input, re-dispatch that input
to the path handler within the same turn.  On failure, re-prompt without
changing the step. -/
def handle_data_source_response (env : Env) (live : OrchLive) (user_input : String) :
    OrchLive × Except String String :=
  match detect_data_source env user_input with
  | some data_source =>
      let live := { live with st := live.st.set_data_source data_source "",
                              current_step := "need_data_path" }
      if data_source = "google_drive" &&
          (strContains user_input "drive.google.com" ||
            strContains user_input "docs.google.com") then
        handle_data_path_response env live user_input
      else
        let response := ask_for_path data_source
        ({ live with st := live.st.add_message "assistant" response }, .ok response)
  | Option.none =>
      let response :=
        "❌ I couldn't detect the data source. Please specify:\n  • Google Drive\n  • Local file\n  • S3 bucket"
      ({ live with st := live.st.add_message "assistant" response }, .ok response)

/-- `OrchestratorAgent.process_user_response(user_input)`: append the user
message — on a never-started conversation `self.state` is `None` and this
raises `AttributeError` — then dispatch purely on the current step; an
unrecognized step answers with the start-over message and changes nothing
else. -/
def process_user_response (env : Env) (o : OrchestratorAgent) (user_input : String) :
    OrchestratorAgent × Except String String :=
  match o.state with
  | Option.none =>
      (o, .error "AttributeError: NoneType object has no attribute add_message")
  | some st =>
      let live : OrchLive :=
        ⟨st.add_message "user" user_input, o.analysis_agent, o.current_step⟩
      let lr :=
        if o.current_step = "need_data_source" then
          handle_data_source_response env live user_input
        else if o.current_step = "need_data_path" then
          handle_data_path_response env live user_input
        else if o.current_step = "ready_for_analysis" then
          handle_analysis_query env live user_input
        else
          let response := "I'm not sure what to do next. Let's start over."
          ({ live with st := live.st.add_message "assistant" response }, .ok response)
      ({ state := some lr.1.st, analysis_agent := lr.1.analysis_agent,
         current_step := lr.1.current_step }, lr.2)

/-! ## Concrete fixtures for witnesses and counterexamples -/

/-- A one-row sales dataset. -/
def sampleDF : DataFrame := ⟨["Date", "Sales"], [[.str "2024-11-10", .num 1000]]⟩

/-- A concrete environment: no path exists, retrieval always succeeds with a
local file, the reader returns `sampleDF`, the LLM returns a fixed completion,
and `exec` sets `result` to an empty dict. -/
def testEnv : Env :=
  { pathExists := fun _ => false
    exec_code := fun _ _ locals =>
      ⟨Option.none,
        locals.map (fun p => if p.1 == "result" then (p.1, PyValue.dict []) else p),
        sampleDF⟩
    llm_invoke := fun _ => .ok "result = 1"
    read_sales_data := fun _ => .ok sampleDF
    retrieve := fun _ p => ⟨true, "✅ Found local file!", some p⟩
    frame_info := fun d => "columns: " ++ String.intercalate ", " d.cols
    frame_to_string := fun d => "rows: " ++ toString d.rows.length }

/-- `testEnv` with a reader that always raises a parse error. -/
def loadFailEnvA : Env :=
  { testEnv with read_sales_data := fun _ => .error "parse error XYZ" }

/-- `testEnv` with a reader that raises a different error text. -/
def loadFailEnvB : Env :=
  { testEnv with read_sales_data := fun _ => .error "another reader error" }

/-- The `(year, month, sales)` fixture of the quarter-sum determinism
property. -/
def quarter_test_df : DataFrame :=
  ⟨["Date", "Sales"],
    [[.str "2024-11-10", .num 1000], [.str "2024-11-20", .num 1500],
     [.str "2024-12-05", .num 2000], [.str "2024-12-15", .num 2500],
     [.str "2025-01-10", .num 1800], [.str "2025-01-20", .num 2200]]⟩

/-- A fifteen-row frame exercising table truncation. -/
def fifteenRowDF : DataFrame :=
  ⟨["Sales"], (List.range 15).map (fun i => [Cell.num i])⟩

/-- Embedding of the orchestrator-with-state shape back into the public
`OrchestratorAgent` record. -/
def OrchLive.toAgent (l : OrchLive) : OrchestratorAgent :=
  ⟨some l.st, l.analysis_agent, l.current_step⟩

/-! ## Claims -/

/-- C1: any code containing a denylisted substring is rejected by
`execute_pandas_code` with the failure dict `"Unsafe code detected"`, for
every dataset state and — since the conclusion holds for every `Env`,
`exec` in particular — without running any part of the code; the dataset
object comes back exactly as it went in. -/
theorem C1_unsafe_code_rejected (env : Env) (df : DataFrame) (code k : String)
    (hk : k ∈ unsafe_keywords) (hsub : strContains code k = true) :
    execute_pandas_code env df code = (.failure "Unsafe code detected", df) := by
  have hcheck : unsafe_operations_check code = false := by
    rw [unsafe_operations_check, List.all_eq_false]
    exact ⟨k, hk, by simp [hsub]⟩
  simp [execute_pandas_code, hcheck]

/-- Witness for C1 at the concrete unsafe fragment `"import os"`. -/
theorem C1_unsafe_code_rejected_witness :
    execute_pandas_code testEnv sampleDF "import os\nresult = os.getcwd()"
      = (.failure "Unsafe code detected", sampleDF) :=
  C1_unsafe_code_rejected testEnv sampleDF "import os\nresult = os.getcwd()"
    "import os" (by decide) (by decide)

/-- C2: the namespace `execute_pandas_code` executes screened code under
(empty globals dict, the locals dict `sandbox_local_vars`) resolves exactly
the six names `df`, `pd`, `np`, `plt`, `sns`, `result`; the output binding
`result` is pre-initialized to `None` and `df` is bound to the dataset. -/
theorem C2_sandbox_namespace (df : DataFrame) (name : String) :
    (resolvable_in_sandbox df name = true ↔
      name ∈ (["df", "pd", "np", "plt", "sns", "result"] : List String)) ∧
    (sandbox_local_vars df).lookup "result" = some PyValue.none ∧
    (sandbox_local_vars df).lookup "df" = some (PyValue.frame df) ∧
    sandbox_globals = ([] : List (String × PyValue)) := by
  refine ⟨?_, rfl, rfl, rfl⟩
  simp [resolvable_in_sandbox, sandbox_local_vars, sandbox_globals, List.any_eq_true]
  tauto

/-- C9: on the six dated rows of the spec's fixture, the quarter-sales
computation with month filter 11, 12, 1 returns exactly 11000. -/
theorem C9_quarter_sales_deterministic :
    calculate_quarter_sales quarter_test_df "Sales" "Date" [11, 12, 1]
      = .ok 11000 := by
  show Except.ok ([(1000 : ℚ), 1500, 2000, 2500, 1800, 2200].sum) = Except.ok 11000
  norm_num [List.sum_cons, List.sum_nil]

/-- C10: on a freshly constructed orchestrator, before any
`start_conversation`, the session state is `None` and `process_user_response`
raises (`AttributeError` while appending the user message) instead of
returning any textual response; nothing guards the ordering. -/
theorem C10_respond_before_start (env : Env) (user_input : String) :
    OrchestratorAgent.init.state = Option.none ∧
    process_user_response env OrchestratorAgent.init user_input
      = (OrchestratorAgent.init,
          .error "AttributeError: NoneType object has no attribute add_message") :=
  ⟨rfl, rfl⟩

/-- C4 (the code, evaluated at the failing input): with no dataset loaded,
`execute_analysis` returns the structured no-data dict, but that dict carries
no `"message"` key, so the orchestrator's `results.get("message",
"Analysis complete!")` turns the failing turn into the success-sounding
response `"Analysis complete!"`. -/
theorem C4_no_data_turn_reports_success :
    execute_analysis testEnv AnalysisAgent.init "total sales" = .noData ∧
    (process_user_response testEnv
        ⟨some ConversationState.init, AnalysisAgent.init, "ready_for_analysis"⟩
        "total sales").2 = .ok "Analysis complete!" :=
  ⟨rfl, rfl⟩

/-- C6 counterexample: in an unrecognized step the conversation is *not*
reset to `INITIAL`: the step sticks at its previous (unknown) value. -/
theorem C6_unknown_step_not_reset :
    (process_user_response testEnv
        ⟨some ConversationState.init, AnalysisAgent.init, "bogus_step"⟩
        "hello").1.current_step = "bogus_step" ∧
    ("bogus_step" : String) ≠ "initial" :=
  ⟨rfl, by decide⟩

/-- C6 amended: in any step other than the three recognized ones,
`process_user_response` leaves the step unchanged and returns the instructive
start-over message (the reset itself never happens). -/
theorem C6_unknown_step_amended (env : Env) (st : ConversationState)
    (a : AnalysisAgent) (step user_input : String)
    (h1 : step ≠ "need_data_source") (h2 : step ≠ "need_data_path")
    (h3 : step ≠ "ready_for_analysis") :
    (process_user_response env ⟨some st, a, step⟩ user_input).1.current_step = step ∧
    (process_user_response env ⟨some st, a, step⟩ user_input).2
      = .ok "I'm not sure what to do next. Let's start over." := by
  unfold process_user_response
  simp [h1, h2, h3]

/-- Witness for C6's amended claim at the concrete unknown step
`"initial"`. -/
theorem C6_unknown_step_amended_witness :
    (process_user_response testEnv
        ⟨some ConversationState.init, AnalysisAgent.init, "initial"⟩
        "hi").1.current_step = "initial" ∧
    (process_user_response testEnv
        ⟨some ConversationState.init, AnalysisAgent.init, "initial"⟩ "hi").2
      = .ok "I'm not sure what to do next. Let's start over." :=
  C6_unknown_step_amended testEnv ConversationState.init AnalysisAgent.init
    "initial" "hi" (by decide) (by decide) (by decide)

/-- C5: tag-directed result formatting — a number renders with two decimal
places and thousands separators inside the fixed `**Result:** ` frame
(12345.6 renders as `12,345.60`); a table of more than 10 rows renders
exactly its first 10 rows under the `(Top 10 rows)` truncation indicator; a
string value is carried into the returned message byte-for-byte unchanged
after the same fixed frame. -/
theorem C5_format_result_policy :
    (∀ (env : Env) (query : String),
        format_result env query (.num (12345.6 : ℚ)) = "**Result:** 12,345.60") ∧
    (∀ (env : Env) (query : String) (d : DataFrame), 10 < d.rows.length →
        format_result env query (.frame d)
          = "**Result DataFrame (Top 10 rows):**\n\n"
              ++ env.frame_to_string ⟨d.cols, d.rows.take 10⟩) ∧
    (∀ (env : Env) (query s : String),
        format_result env query (.str s) = "**Result:** " ++ s) := by
  have h100 : round ((12345.6 : ℚ) * 100) = 1234560 := by norm_num [round_eq]
  have hnum : pyFormatCommas2f (12345.6 : ℚ) = "12,345.60" := by
    simp only [pyFormatCommas2f, h100]
    decide
  refine ⟨fun env query => ?_, fun env query d h => ?_, fun env query s => rfl⟩
  · show "**Result:** " ++ pyFormatCommas2f (12345.6 : ℚ) = "**Result:** 12,345.60"
    rw [hnum]
    rfl
  · show (if d.rows.length > 10 then
          "**Result DataFrame (Top 10 rows):**\n\n" ++ env.frame_to_string (d.head 10)
        else "**Result DataFrame:**\n\n" ++ env.frame_to_string d)
        = "**Result DataFrame (Top 10 rows):**\n\n"
            ++ env.frame_to_string ⟨d.cols, d.rows.take 10⟩
    rw [if_pos h]
    rfl

/-- Witness for C5 at the spec's concrete values: 12345.6, a 15-row table,
and a literal string. -/
theorem C5_format_result_policy_witness :
    format_result testEnv "q" (.num (12345.6 : ℚ)) = "**Result:** 12,345.60" ∧
    format_result testEnv "q" (.frame fifteenRowDF)
      = "**Result DataFrame (Top 10 rows):**\n\n"
          ++ testEnv.frame_to_string ⟨fifteenRowDF.cols, fifteenRowDF.rows.take 10⟩ ∧
    format_result testEnv "q" (.str "hello") = "**Result:** hello" :=
  ⟨C5_format_result_policy.1 testEnv "q",
   C5_format_result_policy.2.1 testEnv "q" fifteenRowDF (by decide),
   C5_format_result_policy.2.2 testEnv "q" "hello"⟩

/-- C7 counterexample: `load_data` returns a bare boolean.  With a reader that
raises `"parse error XYZ"` the returned outcome is just `false` — two
different reader errors produce identical outcomes, so the outcome carries no
error text — and the caller's surfaced turn response is the generic
`"Failed to load data for analysis"` message, which does not contain the
reader's text. -/
theorem C7_load_failure_counterexample :
    load_data loadFailEnvA AnalysisAgent.init "sales.csv" = (AnalysisAgent.init, false) ∧
    load_data loadFailEnvA AnalysisAgent.init "sales.csv"
      = load_data loadFailEnvB AnalysisAgent.init "sales.csv" ∧
    (process_user_response loadFailEnvA
        ⟨some { ConversationState.init with data_source := some "local" },
          AnalysisAgent.init, "need_data_path"⟩ "sales.csv").2
      = .ok "✅ Found local file!\n\n❌ Failed to load data for analysis." ∧
    strContains "✅ Found local file!\n\n❌ Failed to load data for analysis."
      "parse error XYZ" = false :=
  ⟨rfl, rfl, rfl, by decide⟩

/-- C7 amended: `load_data` returns only a boolean success indication; on a
reader failure it returns `false` with the agent unchanged (the reader's
error text is printed to the console, not returned), and the orchestrator
surfaces the retrieval message followed by the generic
`"❌ Failed to load data for analysis."` line instead of the reader's text. -/
theorem C7_load_failure_amended :
    (∀ (env : Env) (a : AnalysisAgent) (p e : String),
        env.read_sales_data p = .error e → load_data env a p = (a, false)) ∧
    (∀ (env : Env) (st : ConversationState) (a : AnalysisAgent) (input ds e : String),
        st.data_source = some ds →
        (retrieve_result env ds input).success = true →
        env.read_sales_data ((retrieve_result env ds input).file_path.getD "")
          = .error e →
        (process_user_response env ⟨some st, a, "need_data_path"⟩ input).2
          = .ok ((retrieve_result env ds input).message
              ++ "\n\n❌ Failed to load data for analysis.")) := by
  constructor
  · intro env a p e h
    simp [load_data, h]
  · intro env st a input ds e hds hr hread
    simp [process_user_response, handle_data_path_response,
          ConversationState.add_message, hds, handle_data_path_retrieve, hr,
          load_data, hread]

/-- Witness for C7's amended claim at a concrete failing reader. -/
theorem C7_load_failure_amended_witness :
    load_data loadFailEnvA AnalysisAgent.init "other.csv" = (AnalysisAgent.init, false) ∧
    (process_user_response loadFailEnvA
        ⟨some { ConversationState.init with data_source := some "local" },
          AnalysisAgent.init, "need_data_path"⟩ "other.csv").2
      = .ok ((retrieve_result loadFailEnvA "local" "other.csv").message
          ++ "\n\n❌ Failed to load data for analysis.") :=
  ⟨C7_load_failure_amended.1 loadFailEnvA AnalysisAgent.init "other.csv"
      "parse error XYZ" rfl,
   C7_load_failure_amended.2 loadFailEnvA
      { ConversationState.init with data_source := some "local" }
      AnalysisAgent.init "other.csv" "local" "parse error XYZ" rfl rfl rfl⟩

/-- C8: in the `need_data_source` step, an input classified as a Drive source
that also matches a Drive URL pattern is re-dispatched, within the same turn,
to the `need_data_path` handler — the whole turn equals the path handler run
on the same input after the source is recorded, so one input serves as both
source choice and path. -/
theorem C8_compound_drive_input (env : Env) (st : ConversationState)
    (a : AnalysisAgent) (user_input : String)
    (hdet : detect_data_source env user_input = some "google_drive")
    (hurl : (strContains user_input "drive.google.com"
        || strContains user_input "docs.google.com") = true) :
    process_user_response env ⟨some st, a, "need_data_source"⟩ user_input
      = ((handle_data_path_response env
            ⟨(st.add_message "user" user_input).set_data_source "google_drive" "",
              a, "need_data_path"⟩ user_input).1.toAgent,
          (handle_data_path_response env
            ⟨(st.add_message "user" user_input).set_data_source "google_drive" "",
              a, "need_data_path"⟩ user_input).2) := by
  simp [process_user_response, handle_data_source_response, hdet, hurl,
        OrchLive.toAgent]

/-- Witness for C8 at a concrete compound input carrying both the source
keyword and a Drive URL. -/
theorem C8_compound_drive_input_witness :
    process_user_response testEnv
        ⟨some ConversationState.init, AnalysisAgent.init, "need_data_source"⟩
        "google drive https://drive.google.com/file/d/1ABC/view"
      = ((handle_data_path_response testEnv
            ⟨(ConversationState.init.add_message "user"
                "google drive https://drive.google.com/file/d/1ABC/view").set_data_source
                  "google_drive" "",
              AnalysisAgent.init, "need_data_path"⟩
            "google drive https://drive.google.com/file/d/1ABC/view").1.toAgent,
          (handle_data_path_response testEnv
            ⟨(ConversationState.init.add_message "user"
                "google drive https://drive.google.com/file/d/1ABC/view").set_data_source
                  "google_drive" "",
              AnalysisAgent.init, "need_data_path"⟩
            "google drive https://drive.google.com/file/d/1ABC/view").2) :=
  C8_compound_drive_input testEnv ConversationState.init AnalysisAgent.init
    "google drive https://drive.google.com/file/d/1ABC/view" (by decide) (by decide)

/-- `_handle_analysis_query` never changes the conversation step, whatever the
analysis outcome — including the paths that raise. -/
theorem handle_analysis_query_step (env : Env) (live : OrchLive) (q : String) :
    (handle_analysis_query env live q).1.current_step = live.current_step := by
  unfold handle_analysis_query
  cases hres : execute_analysis env live.analysis_agent q with
  | noData => rfl
  | failure m => rfl
  | success m data =>
      cases hg : pyGet data "output_file" with
      | error e => simp [hg]
      | ok v =>
          cases ht : pyTruthy v with
          | error e => simp [hg, ht]
          | ok b => cases b <;> simp [hg, ht]

/-- Successful retrieval followed by a successful load moves the step to
`ready_for_analysis` (and the auto-run analysis leaves it there). -/
theorem handle_data_path_retrieve_step_success (env : Env) (live : OrchLive)
    (ds input : String)
    (hr : (retrieve_result env ds input).success = true)
    (hload : (load_data env live.analysis_agent
        ((retrieve_result env ds input).file_path.getD "")).2 = true) :
    (handle_data_path_retrieve env live ds input).1.current_step
      = "ready_for_analysis" := by
  unfold handle_data_path_retrieve
  simp only [hr, if_true, hload]
  cases hha : (handle_analysis_query env
      ⟨(live.st.set_downloaded_file
          ((retrieve_result env ds input).file_path.getD "")),
        (load_data env live.analysis_agent
          ((retrieve_result env ds input).file_path.getD "")).1,
        "ready_for_analysis"⟩
      (live.st.set_downloaded_file
        ((retrieve_result env ds input).file_path.getD "")).original_query).2 with
  | error e =>
      have := handle_analysis_query_step env
        ⟨(live.st.set_downloaded_file
            ((retrieve_result env ds input).file_path.getD "")),
          (load_data env live.analysis_agent
            ((retrieve_result env ds input).file_path.getD "")).1,
          "ready_for_analysis"⟩
        (live.st.set_downloaded_file
          ((retrieve_result env ds input).file_path.getD "")).original_query
      simp_all
  | ok r =>
      have := handle_analysis_query_step env
        ⟨(live.st.set_downloaded_file
            ((retrieve_result env ds input).file_path.getD "")),
          (load_data env live.analysis_agent
            ((retrieve_result env ds input).file_path.getD "")).1,
          "ready_for_analysis"⟩
        (live.st.set_downloaded_file
          ((retrieve_result env ds input).file_path.getD "")).original_query
      simp_all

/-- A retrieval or load failure leaves the step unchanged. -/
theorem handle_data_path_retrieve_step_failure (env : Env) (live : OrchLive)
    (ds input : String)
    (hfail : (retrieve_result env ds input).success = false ∨
      ((retrieve_result env ds input).success = true ∧
        (load_data env live.analysis_agent
          ((retrieve_result env ds input).file_path.getD "")).2 = false)) :
    (handle_data_path_retrieve env live ds input).1.current_step
      = live.current_step := by
  unfold handle_data_path_retrieve
  rcases hfail with hr | ⟨hr, hload⟩
  · simp [hr]
  · simp [hr, hload]

/-- C3: the step after `process_user_response` follows the §4.1 transition
table for every (step, classified-input category) pair: unclassifiable input
in `need_data_source` leaves the step unchanged and returns the fixed
re-prompt, never an advance; a classified source moves to `need_data_path`
(a Drive source with a Drive URL re-dispatches and lands where the path
handler lands); in `need_data_path`, retrieval-and-load success moves to
`ready_for_analysis` while any failure stays; `ready_for_analysis` always
stays. -/
theorem C3_transition_table :
    (∀ (env : Env) (st : ConversationState) (a : AnalysisAgent) (input : String),
      detect_data_source env input = Option.none →
        (process_user_response env ⟨some st, a, "need_data_source"⟩ input).1.current_step
            = "need_data_source" ∧
        (process_user_response env ⟨some st, a, "need_data_source"⟩ input).2
            = .ok "❌ I couldn't detect the data source. Please specify:\n  • Google Drive\n  • Local file\n  • S3 bucket") ∧
    (∀ (env : Env) (st : ConversationState) (a : AnalysisAgent) (input src : String),
      detect_data_source env input = some src →
      (src = "google_drive" &&
          (strContains input "drive.google.com" || strContains input "docs.google.com"))
        = false →
        (process_user_response env ⟨some st, a, "need_data_source"⟩ input).1.current_step
            = "need_data_path") ∧
    (∀ (env : Env) (st : ConversationState) (a : AnalysisAgent) (input : String),
      detect_data_source env input = some "google_drive" →
      (strContains input "drive.google.com" || strContains input "docs.google.com")
        = true →
        (process_user_response env ⟨some st, a, "need_data_source"⟩ input).1.current_step
            = (handle_data_path_response env
                ⟨(st.add_message "user" input).set_data_source "google_drive" "", a,
                  "need_data_path"⟩ input).1.current_step) ∧
    (∀ (env : Env) (st : ConversationState) (a : AnalysisAgent) (input ds : String),
      st.data_source = some ds →
      (retrieve_result env ds input).success = true →
      (load_data env a ((retrieve_result env ds input).file_path.getD "")).2 = true →
        (process_user_response env ⟨some st, a, "need_data_path"⟩ input).1.current_step
            = "ready_for_analysis") ∧
    (∀ (env : Env) (st : ConversationState) (a : AnalysisAgent) (input ds : String),
      st.data_source = some ds →
      ((retrieve_result env ds input).success = false ∨
        ((retrieve_result env ds input).success = true ∧
          (load_data env a ((retrieve_result env ds input).file_path.getD "")).2
            = false)) →
        (process_user_response env ⟨some st, a, "need_data_path"⟩ input).1.current_step
            = "need_data_path") ∧
    (∀ (env : Env) (st : ConversationState) (a : AnalysisAgent) (input : String),
      (process_user_response env ⟨some st, a, "ready_for_analysis"⟩ input).1.current_step
          = "ready_for_analysis") := by
  refine ⟨?_, ?_, ?_, ?_, ?_, ?_⟩
  · intro env st a input h
    constructor <;>
      simp [process_user_response, handle_data_source_response, h]
  · intro env st a input src hdet hnot
    simp [process_user_response, handle_data_source_response, hdet, hnot]
  · intro env st a input hdet hurl
    simp [process_user_response, handle_data_source_response, hdet, hurl]
  · intro env st a input ds hds hr hload
    have := handle_data_path_retrieve_step_success env
      ⟨st.add_message "user" input, a, "need_data_path"⟩ ds input hr hload
    simp [process_user_response, handle_data_path_response,
          ConversationState.add_message, hds] at this ⊢
    exact this
  · intro env st a input ds hds hfail
    have := handle_data_path_retrieve_step_failure env
      ⟨st.add_message "user" input, a, "need_data_path"⟩ ds input hfail
    simp [process_user_response, handle_data_path_response,
          ConversationState.add_message, hds] at this ⊢
    exact this
  · intro env st a input
    have := handle_analysis_query_step env
      ⟨st.add_message "user" input, a, "ready_for_analysis"⟩ input
    simp [process_user_response] at this ⊢
    exact this

/-- Witness for C3 at concrete inputs covering re-prompt, advance,
load success, load failure, and the analysis step. -/
theorem C3_transition_table_witness :
    (process_user_response testEnv
        ⟨some ConversationState.init, AnalysisAgent.init, "need_data_source"⟩
        "hello").1.current_step = "need_data_source" ∧
    (process_user_response testEnv
        ⟨some ConversationState.init, AnalysisAgent.init, "need_data_source"⟩
        "local file").1.current_step = "need_data_path" ∧
    (process_user_response testEnv
        ⟨some { ConversationState.init with data_source := some "local" },
          AnalysisAgent.init, "need_data_path"⟩ "sales.csv").1.current_step
        = "ready_for_analysis" ∧
    (process_user_response loadFailEnvA
        ⟨some { ConversationState.init with data_source := some "local" },
          AnalysisAgent.init, "need_data_path"⟩ "data.csv").1.current_step
        = "need_data_path" ∧
    (process_user_response testEnv
        ⟨some ConversationState.init, AnalysisAgent.init, "ready_for_analysis"⟩
        "total sales by region").1.current_step = "ready_for_analysis" :=
  ⟨(C3_transition_table.1 testEnv ConversationState.init AnalysisAgent.init
      "hello" (by decide)).1,
   C3_transition_table.2.1 testEnv ConversationState.init AnalysisAgent.init
      "local file" "local" (by decide) (by decide),
   C3_transition_table.2.2.2.1 testEnv
      { ConversationState.init with data_source := some "local" }
      AnalysisAgent.init "sales.csv" "local" rfl rfl rfl,
   C3_transition_table.2.2.2.2.1 loadFailEnvA
      { ConversationState.init with data_source := some "local" }
      AnalysisAgent.init "data.csv" "local" rfl (Or.inr ⟨rfl, rfl⟩),
   C3_transition_table.2.2.2.2.2 testEnv ConversationState.init AnalysisAgent.init
      "total sales by region"⟩

end SalesAgent
